import Mathlib

/-!
Verification of the Asthma Risk Assessment app (src/app.py).

The embedding models the risk-scoring core `run_future_model`
and the sensor-ingest endpoint `api_sensor` as pure Lean functions.
Python dictionaries with optional keys become structures of `Option`
fields; `dict.get(k, d)` becomes `Option.getD`; floats become `ℚ`
(the thresholds 0.35 and 0.65 and all inputs of interest are exactly
representable); the opaque classifier becomes an abstract function
`List ℚ → ℚ`, absent when the model file failed to load; the three
JSON log files become explicit lists threaded through `api_sensor`.
-/

/-- SensorReading dictionary passed to `run_future_model`: every key may be
absent, mirroring a Python dict accessed with `.get`. -/
structure Sensor where
  temperature : Option ℚ := none
  humidity : Option ℚ := none
  mq2 : Option ℚ := none
  mq135 : Option ℚ := none
  dust_equiv : Option ℚ := none
  dust : Option ℚ := none
deriving DecidableEq

/-- PatientProfile dictionary loaded from patient.json: every key may be
absent, mirroring a Python dict accessed with `.get`. -/
structure Patient where
  name : Option String := none
  age : Option ℚ := none
  gender : Option String := none
  smoker : Option String := none
  allergy_present : Option String := none
  allergy_type : Option String := none
  occupation : Option String := none
deriving DecidableEq

/-- Source `default_patient` (app.py lines 29-39). -/
def default_patient : Patient :=
  { name := some "Hari"
    age := some 21
    gender := some "Male"
    smoker := some "Non-smoker"
    allergy_present := some "No"
    allergy_type := some "None"
    occupation := some "Home/Office" }

/-- Source `smoker_map.get(smoker_str, 0)` (app.py lines 104-109). -/
def smoker_map (s : String) : ℚ :=
  if s = "Non-smoker" then 0
  else if s = "Passive smoker" then 1
  else if s = "Active smoker" then 2
  else 0

/-- Source `1.0 if allergy_present_str == "Yes" else 0.0` (app.py line 113). -/
def allergy_present_map (s : String) : ℚ :=
  if s = "Yes" then 1 else 0

/-- Source `allergy_type_map.get(allergy_type_str, 0)` (app.py lines 117-124). -/
def allergy_type_map (s : String) : ℚ :=
  if s = "None" then 0
  else if s = "Dust" then 1
  else if s = "Pollen" then 2
  else if s = "Pets" then 3
  else if s = "Other" then 4
  else 0

/-- Source `occ_map.get(occupation_str, 0)` (app.py lines 128-133). -/
def occ_map (s : String) : ℚ :=
  if s = "Home/Office" then 0
  else if s = "Outdoor/Traffic" then 1
  else if s = "Factory/Heavy" then 2
  else 0

/-- Source `feat_map` dictionary of derived features (app.py lines 91-146),
as a lookup function: `some` on the ten feature names, `none` otherwise,
so that `feat_map.get(f, 0.0)` becomes `(feat_map sensor patient f).getD 0`. -/
def feat_map (sensor : Sensor) (patient : Patient) : String → Option ℚ :=
  fun f =>
    let hum := sensor.humidity.getD 0
    let temp := sensor.temperature.getD 0
    let mq2 := sensor.mq2.getD 0
    let mq135 := sensor.mq135.getD 0
    let dust := sensor.dust_equiv.getD (sensor.dust.getD 0)
    let age := patient.age.getD 21
    let smoker_level := smoker_map (patient.smoker.getD "Non-smoker")
    let allergy_present := allergy_present_map (patient.allergy_present.getD "No")
    let allergy_type := allergy_type_map (patient.allergy_type.getD "None")
    let occupation_risk := occ_map (patient.occupation.getD "Home/Office")
    if f = "humidity" then some hum
    else if f = "temperature" then some temp
    else if f = "mq2" then some mq2
    else if f = "mq135" then some mq135
    else if f = "dust" then some dust
    else if f = "age" then some age
    else if f = "smoker_level" then some smoker_level
    else if f = "allergy_present" then some allergy_present
    else if f = "allergy_type" then some allergy_type
    else if f = "occupation_risk" then some occupation_risk
    else none

/-- Source `vec = [float(feat_map.get(f, 0.0)) for f in FEATURES_FUTURE]`
(app.py line 148). -/
def build_vec (FEATURES_FUTURE : List String) (sensor : Sensor) (patient : Patient) :
    List ℚ :=
  FEATURES_FUTURE.map (fun f => (feat_map sensor patient f).getD 0)

/-- Source thresholding of the probability (app.py lines 153-158). -/
def label_of (prob : ℚ) : String :=
  if prob < 0.35 then "LOW RISK"
  else if prob < 0.65 then "MEDIUM RISK"
  else "HIGH RISK"

/-- Source `run_future_model` (app.py lines 78-160). The classifier global
`future_model` is an abstract function `List ℚ → ℚ` (the composite of
`predict_proba` and taking row 0 column 1), `none` when loading failed.
`patient = patient or default_patient()` is modelled by `Option.getD`:
the only other falsy dict is the empty dict, whose `.get` lookups agree
with `default_patient` on every key the function reads, so the two are
observationally identical here. -/
def run_future_model (future_model : Option (List ℚ → ℚ))
    (FEATURES_FUTURE : List String) (sensor : Sensor) (patient : Option Patient) :
    Option ℚ × String :=
  match future_model with
  | none => (none, "UNKNOWN")
  | some model =>
    if FEATURES_FUTURE.isEmpty then (none, "UNKNOWN")
    else
      let p := patient.getD default_patient
      let vec := build_vec FEATURES_FUTURE sensor p
      let prob := model vec
      (some prob, label_of prob)

/-- Inbound JSON payload of the `/api/sensor` endpoint: every key may be
absent. The source coerces mq2 and mq135 with `int(...)`, the rest with
`float(...)`. -/
structure Payload where
  temperature : Option ℚ := none
  humidity : Option ℚ := none
  mq2 : Option Int := none
  mq135 : Option Int := none
  dust_equiv : Option ℚ := none
  dust : Option ℚ := none
deriving DecidableEq

/-- Source `sensor_dict` construction in `api_sensor` (app.py lines 180-184
and 204-210): defaults applied to the payload, then repacked as a sensor
dict whose five keys are all present (there is no `dust` key in it). -/
def payload_to_sensor (data : Payload) : Sensor :=
  { temperature := some (data.temperature.getD 0)
    humidity := some (data.humidity.getD 0)
    mq2 := some ((data.mq2.getD 1 : Int) : ℚ)
    mq135 := some ((data.mq135.getD 1 : Int) : ℚ)
    dust_equiv := some (data.dust_equiv.getD (data.dust.getD 0))
    dust := none }

/-- Source `prob, label = run_future_model(sensor_dict, patient)` inside
`api_sensor` (app.py line 211). -/
def api_risk (future_model : Option (List ℚ → ℚ)) (FEATURES_FUTURE : List String)
    (patient : Patient) (data : Payload) : Option ℚ × String :=
  run_future_model future_model FEATURES_FUTURE (payload_to_sensor data) (some patient)

/-- Reading record appended to readings.json (app.py lines 189-196). -/
structure Reading where
  timestamp : String
  temperature : ℚ
  humidity : ℚ
  mq2 : Int
  mq135 : Int
  dust_equiv : ℚ
deriving DecidableEq

/-- Attack record appended to attacks.json (app.py lines 216-221). -/
structure AttackRecord where
  timestamp : String
  probability : ℚ
  risk_label : String
  details : String
deriving DecidableEq

/-- Alert record appended to alerts.json (app.py lines 225-229). -/
structure AlertRecord where
  timestamp : String
  message : String
  details : String
deriving DecidableEq

/-- Persistent program state: the three JSON log files the endpoint touches. -/
structure AppState where
  readings : List Reading
  attacks : List AttackRecord
  alerts : List AlertRecord
deriving DecidableEq

/-- Source f-string `f"T={temp}, H={hum}, MQ2={mq2}, MQ135={mq135}, Dust={dust}"`
(app.py lines 220 and 228), with Lean numeral rendering standing in for
Python float formatting. -/
def details_str (temp hum : ℚ) (mq2 mq135 : Int) (dust : ℚ) : String :=
  "T=" ++ toString temp ++ ", H=" ++ toString hum ++ ", MQ2=" ++ toString mq2 ++
    ", MQ135=" ++ toString mq135 ++ ", Dust=" ++ toString dust

/-- Model of Python list/string prefix test used by substring containment:
`starts_with n h` holds when `n` is an initial segment of `h`. -/
def starts_with : List Char → List Char → Bool
  | [], _ => true
  | _ :: _, [] => false
  | a :: as, b :: bs => a == b && starts_with as bs

/-- Model of the Python expression `needle in haystack` on strings
(substring containment), used by `"HIGH" in label` (app.py line 214). -/
def has_sub (needle : List Char) : List Char → Bool
  | [] => needle.isEmpty
  | c :: rest => starts_with needle (c :: rest) || has_sub needle rest

/-- Source conditional block `if prob is not None and "HIGH" in label`
(app.py lines 213-230): append an attack record and an alert record to the
logs when the guard holds, leave them unchanged otherwise, and in either
case pass the `(prob, label)` pair on to the JSON response. -/
def log_if_high (timestamp : String) (temp hum : ℚ) (mq2 mq135 : Int) (dust : ℚ)
    (r : Option ℚ × String) (st1 : AppState) : AppState × (Option ℚ × String) :=
  if r.1.isSome && has_sub "HIGH".toList r.2.toList then
    ({ st1 with
        attacks := st1.attacks ++
          [{ timestamp := timestamp, probability := r.1.getD 0, risk_label := r.2,
             details := details_str temp hum mq2 mq135 dust }],
        alerts := st1.alerts ++
          [{ timestamp := timestamp, message := "HIGH Immediate Asthma Risk Detected!",
             details := details_str temp hum mq2 mq135 dust }] },
      r)
  else
    (st1, r)

/-- Source `api_sensor` endpoint (app.py lines 166-237) as a state
transformer: it applies the payload defaults, appends the reading, runs the
model, and appends an attack and an alert record exactly when
`prob is not None and "HIGH" in label`. The JSON response body is returned
as the `(prob, label)` pair. -/
def api_sensor (future_model : Option (List ℚ → ℚ)) (FEATURES_FUTURE : List String)
    (patient : Patient) (timestamp : String) (data : Payload) (st : AppState) :
    AppState × (Option ℚ × String) :=
  let temp := data.temperature.getD 0
  let hum := data.humidity.getD 0
  let mq2 := data.mq2.getD 1
  let mq135 := data.mq135.getD 1
  let dust := data.dust_equiv.getD (data.dust.getD 0)
  let reading : Reading :=
    { timestamp := timestamp, temperature := temp, humidity := hum,
      mq2 := mq2, mq135 := mq135, dust_equiv := dust }
  let st1 : AppState := { st with readings := st.readings ++ [reading] }
  let r := api_risk future_model FEATURES_FUTURE patient data
  log_if_high timestamp temp hum mq2 mq135 dust r st1

/-- State-threading view of `run_future_model`: the source function performs
no file I/O and mutates no global, it only reads its arguments and the
immutable model and schema loaded at startup, so the program state passes
through unchanged. -/
def run_future_model_state (st : AppState) (future_model : Option (List ℚ → ℚ))
    (FEATURES_FUTURE : List String) (sensor : Sensor) (patient : Option Patient) :
    AppState × (Option ℚ × String) :=
  (st, run_future_model future_model FEATURES_FUTURE sensor patient)

/-- Patient dict whose scoring-relevant categorical fields all carry their
documented default values explicitly; name, gender and age stay arbitrary. -/
def patient_with_defaults (name gender : Option String) (age : Option ℚ) : Patient :=
  { name := name, age := age, gender := gender, smoker := some "Non-smoker",
    allergy_present := some "No", allergy_type := some "None",
    occupation := some "Home/Office" }

/-! ### Helper lemmas -/

/-- Unfolding lemma for `run_future_model` in the non-degraded case. -/
theorem run_future_model_eq_some (g : List ℚ → ℚ) (sch : List String) (se : Sensor)
    (pt : Option Patient) (h : ¬ sch = []) :
    run_future_model (some g) sch se pt =
      (some (g (build_vec sch se (pt.getD default_patient))),
        label_of (g (build_vec sch se (pt.getD default_patient)))) := by
  cases sch with
  | nil => exact absurd rfl h
  | cons a l => rfl

/-- Every result of `run_future_model` is either the degraded pair or a
probability together with its thresholded label. -/
theorem run_future_model_qcases (m : Option (List ℚ → ℚ)) (sch : List String)
    (se : Sensor) (pt : Option Patient) :
    run_future_model m sch se pt = (none, "UNKNOWN") ∨
    ∃ q : ℚ, run_future_model m sch se pt = (some q, label_of q) := by
  cases m with
  | none => exact Or.inl rfl
  | some g =>
    cases sch with
    | nil => exact Or.inl rfl
    | cons a l => exact Or.inr ⟨_, rfl⟩

/-- The thresholding always produces one of the three risk labels. -/
theorem label_of_cases (q : ℚ) :
    label_of q = "LOW RISK" ∨ label_of q = "MEDIUM RISK" ∨ label_of q = "HIGH RISK" := by
  unfold label_of
  split
  · exact Or.inl rfl
  · split
    · exact Or.inr (Or.inl rfl)
    · exact Or.inr (Or.inr rfl)

/-! ### Claims -/

/-- C1: `run_future_model` maps the classifier probability to a label by the
fixed thresholds: below 0.35 is LOW RISK, from 0.35 up to but excluding 0.65
is MEDIUM RISK, from 0.65 on is HIGH RISK, with boundary behaviour exactly as
at 0.34999, 0.35, 0.64999 and 0.65; and the label the function returns is the
thresholding of the probability the classifier produced on the built vector. -/
theorem C1_threshold_labels (p : ℚ) :
    (p < 0.35 → label_of p = "LOW RISK") ∧
    (0.35 ≤ p → p < 0.65 → label_of p = "MEDIUM RISK") ∧
    (0.65 ≤ p → label_of p = "HIGH RISK") ∧
    label_of 0.34999 = "LOW RISK" ∧
    label_of 0.35 = "MEDIUM RISK" ∧
    label_of 0.64999 = "MEDIUM RISK" ∧
    label_of 0.65 = "HIGH RISK" ∧
    (∀ (g : List ℚ → ℚ) (sch : List String) (se : Sensor) (pt : Option Patient),
      ¬ sch = [] →
      (run_future_model (some g) sch se pt).2 =
        label_of (g (build_vec sch se (pt.getD default_patient)))) := by
  refine ⟨?_, ?_, ?_, by norm_num [label_of], by norm_num [label_of],
    by norm_num [label_of], by norm_num [label_of], ?_⟩
  · intro h
    simp [label_of, h]
  · intro h1 h2
    simp [label_of, not_lt.mpr h1, h2]
  · intro h
    have h1 : ¬ p < 0.35 := not_lt.mpr (le_trans (by norm_num) h)
    have h2 : ¬ p < 0.65 := not_lt.mpr h
    simp [label_of, h1, h2]
  · intro g sch se pt h
    rw [run_future_model_eq_some g sch se pt h]

/-- Witness for C1 at concrete probabilities. -/
theorem C1_threshold_labels_witness :
    label_of 0.2 = "LOW RISK" ∧ label_of 0.5 = "MEDIUM RISK" ∧
    label_of 0.9 = "HIGH RISK" ∧
    (run_future_model (some (fun _ => (0.9 : ℚ))) ["age"] {} none).2 = label_of 0.9 := by
  refine ⟨(C1_threshold_labels 0.2).1 (by norm_num),
    (C1_threshold_labels 0.5).2.1 (by norm_num) (by norm_num),
    (C1_threshold_labels 0.9).2.2.1 (by norm_num), ?_⟩
  exact (C1_threshold_labels 0).2.2.2.2.2.2.2 (fun _ => (0.9 : ℚ)) ["age"] {} none
    (by simp)

/-- C2: the vector passed to the classifier is built by iterating the schema
in order, looking each name up in the derived-feature map and defaulting to
0.0 for unrecognized names; features not named in the schema are omitted, so
the vector has exactly one entry per schema name in schema order; with schema
[mq2, age], sensor mq2 = 7 and patient age = 40 the vector is [7.0, 40.0]
regardless of all other input fields. -/
theorem C2_vector_schema (sch : List String) (se : Sensor) (p : Patient) :
    (build_vec sch se p).length = sch.length ∧
    (∀ i : ℕ, (build_vec sch se p).get? i =
      (sch.get? i).map (fun f => (feat_map se p f).getD 0)) ∧
    (∀ f, ¬ (f = "humidity" ∨ f = "temperature" ∨ f = "mq2" ∨ f = "mq135" ∨
        f = "dust" ∨ f = "age" ∨ f = "smoker_level" ∨ f = "allergy_present" ∨
        f = "allergy_type" ∨ f = "occupation_risk") → feat_map se p f = none) ∧
    (∀ g : List ℚ → ℚ, ¬ sch = [] →
      (run_future_model (some g) sch se (some p)).1 = some (g (build_vec sch se p))) ∧
    (∀ (se2 : Sensor) (p2 : Patient), se2.mq2 = some 7 → p2.age = some 40 →
      build_vec ["mq2", "age"] se2 p2 = [7, 40]) := by
  refine ⟨by simp [build_vec], ?_, ?_, ?_, ?_⟩
  · intro i
    simp [build_vec, List.get?_map]
  · intro f h
    push_neg at h
    obtain ⟨h1, h2, h3, h4, h5, h6, h7, h8, h9, h10⟩ := h
    simp [feat_map, h1, h2, h3, h4, h5, h6, h7, h8, h9, h10]
  · intro g h
    rw [run_future_model_eq_some g sch se (some p) h]
    rfl
  · intro se2 p2 h1 h2
    have e : build_vec ["mq2", "age"] se2 p2 = [se2.mq2.getD 0, p2.age.getD 21] := rfl
    rw [e, h1, h2]
    rfl

/-- Witness for C2 at a concrete sensor and patient with extra fields set. -/
theorem C2_vector_schema_witness :
    build_vec ["mq2", "age"]
      ({ mq2 := some 7, humidity := some 99, dust := some 3 } : Sensor)
      ({ age := some 40, smoker := some "Active smoker" } : Patient) = [7, 40] :=
  (C2_vector_schema [] {} {}).2.2.2.2
    ({ mq2 := some 7, humidity := some 99, dust := some 3 } : Sensor)
    ({ age := some 40, smoker := some "Active smoker" } : Patient) rfl rfl

/-- C3: when the classifier is unavailable or the schema is empty,
`run_future_model` returns the degraded pair, no probability and label
UNKNOWN; the Lean embedding is a total function, so no error is possible. -/
theorem C3_degraded_unknown (m : Option (List ℚ → ℚ)) (sch : List String)
    (se : Sensor) (pt : Option Patient) (h : m = none ∨ sch = []) :
    run_future_model m sch se pt = (none, "UNKNOWN") := by
  rcases h with h | h
  · subst h
    rfl
  · subst h
    cases m with
    | none => rfl
    | some g => rfl

/-- Witness for C3: unavailable classifier, and empty schema with a
classifier present. -/
theorem C3_degraded_unknown_witness :
    run_future_model none ["mq2"] {} none = (none, "UNKNOWN") ∧
    run_future_model (some (fun _ => (0.9 : ℚ))) [] ({ mq2 := some 7 } : Sensor)
      (some default_patient) = (none, "UNKNOWN") :=
  ⟨C3_degraded_unknown none ["mq2"] {} none (Or.inl rfl),
    C3_degraded_unknown (some (fun _ => (0.9 : ℚ))) [] ({ mq2 := some 7 } : Sensor)
      (some default_patient) (Or.inr rfl)⟩

/-- C4: the categorical patient fields are encoded exactly as the source maps
prescribe, and every unrecognized categorical string encodes to 0 without
error; the feature map applies these encodings to the patient fields with
their documented fallback keys. -/
theorem C4_categorical_encodings :
    smoker_map "Non-smoker" = 0 ∧ smoker_map "Passive smoker" = 1 ∧
    smoker_map "Active smoker" = 2 ∧
    allergy_present_map "Yes" = 1 ∧
    allergy_type_map "None" = 0 ∧ allergy_type_map "Dust" = 1 ∧
    allergy_type_map "Pollen" = 2 ∧ allergy_type_map "Pets" = 3 ∧
    allergy_type_map "Other" = 4 ∧
    occ_map "Home/Office" = 0 ∧ occ_map "Outdoor/Traffic" = 1 ∧
    occ_map "Factory/Heavy" = 2 ∧
    (∀ s, ¬ (s = "Non-smoker" ∨ s = "Passive smoker" ∨ s = "Active smoker") →
      smoker_map s = 0) ∧
    (∀ s, ¬ s = "Yes" → allergy_present_map s = 0) ∧
    (∀ s, ¬ (s = "None" ∨ s = "Dust" ∨ s = "Pollen" ∨ s = "Pets" ∨ s = "Other") →
      allergy_type_map s = 0) ∧
    (∀ s, ¬ (s = "Home/Office" ∨ s = "Outdoor/Traffic" ∨ s = "Factory/Heavy") →
      occ_map s = 0) ∧
    (∀ (se : Sensor) (p : Patient),
      feat_map se p "smoker_level" = some (smoker_map (p.smoker.getD "Non-smoker")) ∧
      feat_map se p "allergy_present" =
        some (allergy_present_map (p.allergy_present.getD "No")) ∧
      feat_map se p "allergy_type" =
        some (allergy_type_map (p.allergy_type.getD "None")) ∧
      feat_map se p "occupation_risk" =
        some (occ_map (p.occupation.getD "Home/Office"))) := by
  refine ⟨rfl, rfl, rfl, rfl, rfl, rfl, rfl, rfl, rfl, rfl, rfl, rfl, ?_, ?_, ?_, ?_,
    fun se p => ⟨rfl, rfl, rfl, rfl⟩⟩
  · intro s h
    push_neg at h
    obtain ⟨h1, h2, h3⟩ := h
    simp [smoker_map, h1, h2, h3]
  · intro s h
    simp [allergy_present_map, h]
  · intro s h
    push_neg at h
    obtain ⟨h1, h2, h3, h4, h5⟩ := h
    simp [allergy_type_map, h1, h2, h3, h4, h5]
  · intro s h
    push_neg at h
    obtain ⟨h1, h2, h3⟩ := h
    simp [occ_map, h1, h2, h3]

/-- Witness for C4: the unrecognized string Vaper encodes to 0 in every map. -/
theorem C4_categorical_encodings_witness :
    smoker_map "Vaper" = 0 ∧ allergy_present_map "Vaper" = 0 ∧
    allergy_type_map "Vaper" = 0 ∧ occ_map "Vaper" = 0 := by
  obtain ⟨-, -, -, -, -, -, -, -, -, -, -, -, hsm, hap, hat, hoc, -⟩ :=
    C4_categorical_encodings
  exact ⟨hsm "Vaper" (by decide), hap "Vaper" (by decide),
    hat "Vaper" (by decide), hoc "Vaper" (by decide)⟩

/-- C5 counterexample: for an empty inbound payload (every field missing) the
feature vector built from the sensor dict that `api_sensor` constructs has
mq2 entry 1, not 0, because the endpoint defaults mq2 with `.get("mq2", 1)`. -/
theorem C5_counterexample_mq2_default :
    build_vec ["mq2"] (payload_to_sensor {}) default_patient = [1] ∧
    ¬ build_vec ["mq2"] (payload_to_sensor {}) default_patient = [0] := by
  have e : build_vec ["mq2"] (payload_to_sensor {}) default_patient =
      [(((1 : Int) : ℚ))] := rfl
  rw [e]
  norm_num

/-- C5 amended: inside `run_future_model`, every missing sensor field
defaults to 0 and the dust feature comes from dust_equiv with fallback to
dust and then 0; on the inbound `api_sensor` path, missing temperature,
humidity and dust default to 0 but missing mq2 and mq135 default to 1. -/
theorem C5_sensor_defaults (data : Payload) (se : Sensor) (p : Patient) (d : ℚ) :
    feat_map (payload_to_sensor data) p "temperature" =
      some (data.temperature.getD 0) ∧
    feat_map (payload_to_sensor data) p "humidity" = some (data.humidity.getD 0) ∧
    feat_map (payload_to_sensor data) p "mq2" = some ((data.mq2.getD 1 : Int) : ℚ) ∧
    feat_map (payload_to_sensor data) p "mq135" =
      some ((data.mq135.getD 1 : Int) : ℚ) ∧
    feat_map (payload_to_sensor data) p "dust" =
      some (data.dust_equiv.getD (data.dust.getD 0)) ∧
    feat_map { se with temperature := none } p "temperature" = some 0 ∧
    feat_map { se with humidity := none } p "humidity" = some 0 ∧
    feat_map { se with mq2 := none } p "mq2" = some 0 ∧
    feat_map { se with mq135 := none } p "mq135" = some 0 ∧
    feat_map { se with dust_equiv := none, dust := none } p "dust" = some 0 ∧
    feat_map { se with dust_equiv := some d } p "dust" = some d ∧
    feat_map { se with dust_equiv := none } p "dust" = some (se.dust.getD 0) :=
  ⟨rfl, rfl, rfl, rfl, rfl, rfl, rfl, rfl, rfl, rfl, rfl, rfl⟩

/-- C6: when the patient argument is absent, `run_future_model` behaves as if
called with the fixed default profile, whose fields are age 21, Non-smoker,
allergy_present No, allergy_type None, occupation Home/Office. -/
theorem C6_absent_patient_default (m : Option (List ℚ → ℚ)) (sch : List String)
    (se : Sensor) :
    run_future_model m sch se none = run_future_model m sch se (some default_patient) ∧
    default_patient.age = some 21 ∧
    default_patient.smoker = some "Non-smoker" ∧
    default_patient.allergy_present = some "No" ∧
    default_patient.allergy_type = some "None" ∧
    default_patient.occupation = some "Home/Office" := by
  refine ⟨?_, rfl, rfl, rfl, rfl, rfl⟩
  cases m with
  | none => rfl
  | some g =>
    cases sch with
    | nil => rfl
    | cons a l => rfl

/-- C7: with every scoring-relevant patient field at its default value,
whether given explicitly or left absent, the four encoded categorical
features are all 0. -/
theorem C7_default_fields_zero (se : Sensor) (name gender : Option String)
    (age : Option ℚ) :
    feat_map se (patient_with_defaults name gender age) "smoker_level" = some 0 ∧
    feat_map se (patient_with_defaults name gender age) "allergy_present" = some 0 ∧
    feat_map se (patient_with_defaults name gender age) "allergy_type" = some 0 ∧
    feat_map se (patient_with_defaults name gender age) "occupation_risk" = some 0 ∧
    feat_map se ({} : Patient) "smoker_level" = some 0 ∧
    feat_map se ({} : Patient) "allergy_present" = some 0 ∧
    feat_map se ({} : Patient) "allergy_type" = some 0 ∧
    feat_map se ({} : Patient) "occupation_risk" = some 0 :=
  ⟨rfl, rfl, rfl, rfl, rfl, rfl, rfl, rfl⟩

/-- C8: `run_future_model` is deterministic and side-effect free: threaded
through the program state it leaves the state unchanged, two calls with
identical inputs return identical results, and a repeated call from the
state left by the first call reproduces the first call exactly. -/
theorem C8_pure_deterministic (st st2 : AppState) (m : Option (List ℚ → ℚ))
    (sch : List String) (se : Sensor) (pt : Option Patient) :
    (run_future_model_state st m sch se pt).1 = st ∧
    (run_future_model_state st2 m sch se pt).2 = (run_future_model_state st m sch se pt).2 ∧
    run_future_model_state (run_future_model_state st m sch se pt).1 m sch se pt =
      run_future_model_state st m sch se pt :=
  ⟨rfl, rfl, rfl⟩

/-- Unfolding of `api_sensor` into the logging step applied to the risk
result and the state with the new reading appended. -/
theorem api_sensor_unfold (m : Option (List ℚ → ℚ)) (sch : List String)
    (pt : Patient) (ts : String) (data : Payload) (st : AppState) :
    api_sensor m sch pt ts data st =
      log_if_high ts (data.temperature.getD 0) (data.humidity.getD 0)
        (data.mq2.getD 1) (data.mq135.getD 1)
        (data.dust_equiv.getD (data.dust.getD 0))
        (api_risk m sch pt data)
        { st with readings := st.readings ++
            [{ timestamp := ts, temperature := data.temperature.getD 0,
               humidity := data.humidity.getD 0, mq2 := data.mq2.getD 1,
               mq135 := data.mq135.getD 1,
               dust_equiv := data.dust_equiv.getD (data.dust.getD 0) }] } := rfl

/-- The logging step leaves the attack and alert logs unchanged whenever the
guard `prob is not None and "HIGH" in label` is false. -/
theorem log_if_high_not (ts : String) (temp hum : ℚ) (mq2 mq135 : Int) (dust : ℚ)
    (pr : Option ℚ) (lb : String) (st1 : AppState)
    (hc : (pr.isSome && has_sub "HIGH".toList lb.toList) = false) :
    log_if_high ts temp hum mq2 mq135 dust (pr, lb) st1 = (st1, (pr, lb)) := by
  unfold log_if_high
  rw [show (((pr, lb) : Option ℚ × String).1.isSome &&
      has_sub "HIGH".toList ((pr, lb) : Option ℚ × String).2.toList) = false from hc]
  rfl

/-- The logging step appends exactly one attack record and one alert record
when the probability is present and the label is HIGH RISK. -/
theorem log_if_high_high (ts : String) (temp hum : ℚ) (mq2 mq135 : Int) (dust : ℚ)
    (q : ℚ) (st1 : AppState) :
    log_if_high ts temp hum mq2 mq135 dust (some q, "HIGH RISK") st1 =
      ({ st1 with
          attacks := st1.attacks ++
            [{ timestamp := ts, probability := q, risk_label := "HIGH RISK",
               details := details_str temp hum mq2 mq135 dust }],
          alerts := st1.alerts ++
            [{ timestamp := ts, message := "HIGH Immediate Asthma Risk Detected!",
               details := details_str temp hum mq2 mq135 dust }] },
        (some q, "HIGH RISK")) := by
  unfold log_if_high
  rw [show (((some q, "HIGH RISK") : Option ℚ × String).1.isSome &&
      has_sub "HIGH".toList ((some q, "HIGH RISK") : Option ℚ × String).2.toList) = true
    from by
      show (true && has_sub "HIGH".toList ("HIGH RISK".toList)) = true
      decide]
  rfl

/-- C9: `api_sensor` appends an attack record and an alert record exactly
when the computed probability is present and the label is HIGH RISK; for
LOW RISK, MEDIUM RISK or UNKNOWN results both logs are left unchanged. -/
theorem C9_high_risk_logging (m : Option (List ℚ → ℚ)) (sch : List String)
    (pt : Patient) (ts : String) (data : Payload) (st : AppState) :
    ((api_risk m sch pt data).1.isSome = true ∧
        (api_risk m sch pt data).2 = "HIGH RISK" →
      ∃ a b, (api_sensor m sch pt ts data st).1.attacks = st.attacks ++ [a] ∧
        (api_sensor m sch pt ts data st).1.alerts = st.alerts ++ [b]) ∧
    (¬ ((api_risk m sch pt data).1.isSome = true ∧
        (api_risk m sch pt data).2 = "HIGH RISK") →
      (api_sensor m sch pt ts data st).1.attacks = st.attacks ∧
      (api_sensor m sch pt ts data st).1.alerts = st.alerts) := by
  rcases run_future_model_qcases m sch (payload_to_sensor data) (some pt) with hr | ⟨q, hr⟩
  · have hr2 : api_risk m sch pt data = (none, "UNKNOWN") := hr
    constructor
    · rintro ⟨h1, -⟩
      rw [hr2] at h1
      simp at h1
    · intro hn
      rw [api_sensor_unfold m sch pt ts data st, hr2,
        log_if_high_not _ _ _ _ _ _ none "UNKNOWN" _ (by decide)]
      exact ⟨rfl, rfl⟩
  · rcases label_of_cases q with hl | hl | hl
    · have hr2 : api_risk m sch pt data = (some q, "LOW RISK") := by
        show run_future_model m sch (payload_to_sensor data) (some pt) = (some q, "LOW RISK")
        rw [hr, hl]
      constructor
      · rintro ⟨-, h2⟩
        rw [hr2] at h2
        have h3 : ("LOW RISK" : String) = "HIGH RISK" := h2
        exact absurd h3 (by decide)
      · intro hn
        rw [api_sensor_unfold m sch pt ts data st, hr2,
          log_if_high_not _ _ _ _ _ _ (some q) "LOW RISK" _ (by
            show (true && has_sub "HIGH".toList ("LOW RISK".toList)) = false
            decide)]
        exact ⟨rfl, rfl⟩
    · have hr2 : api_risk m sch pt data = (some q, "MEDIUM RISK") := by
        show run_future_model m sch (payload_to_sensor data) (some pt) = (some q, "MEDIUM RISK")
        rw [hr, hl]
      constructor
      · rintro ⟨-, h2⟩
        rw [hr2] at h2
        have h3 : ("MEDIUM RISK" : String) = "HIGH RISK" := h2
        exact absurd h3 (by decide)
      · intro hn
        rw [api_sensor_unfold m sch pt ts data st, hr2,
          log_if_high_not _ _ _ _ _ _ (some q) "MEDIUM RISK" _ (by
            show (true && has_sub "HIGH".toList ("MEDIUM RISK".toList)) = false
            decide)]
        exact ⟨rfl, rfl⟩
    · have hr2 : api_risk m sch pt data = (some q, "HIGH RISK") := by
        show run_future_model m sch (payload_to_sensor data) (some pt) = (some q, "HIGH RISK")
        rw [hr, hl]
      constructor
      · intro h
        rw [api_sensor_unfold m sch pt ts data st, hr2,
          log_if_high_high ts (data.temperature.getD 0) (data.humidity.getD 0)
            (data.mq2.getD 1) (data.mq135.getD 1)
            (data.dust_equiv.getD (data.dust.getD 0)) q _]
        exact ⟨_, _, rfl, rfl⟩
      · intro hn
        exact absurd ⟨by rw [hr2]; rfl, by rw [hr2]⟩ hn

/-- Witness for C9: a classifier that always returns 0.9 on a one-feature
schema drives the HIGH RISK branch and appends to both logs. -/
theorem C9_high_risk_logging_witness :
    ∃ a b,
      (api_sensor (some (fun _ => (0.9 : ℚ))) ["age"] default_patient "t" {}
        ⟨[], [], []⟩).1.attacks = [] ++ [a] ∧
      (api_sensor (some (fun _ => (0.9 : ℚ))) ["age"] default_patient "t" {}
        ⟨[], [], []⟩).1.alerts = [] ++ [b] := by
  refine (C9_high_risk_logging (some (fun _ => (0.9 : ℚ))) ["age"] default_patient
    "t" {} ⟨[], [], []⟩).1 ⟨rfl, ?_⟩
  show label_of (0.9 : ℚ) = "HIGH RISK"
  norm_num [label_of]

/-- C10: `run_future_model` returns no probability exactly when the label is
UNKNOWN, and whenever a probability is returned the label is LOW RISK,
MEDIUM RISK or HIGH RISK. -/
theorem C10_prob_label_invariant (m : Option (List ℚ → ℚ)) (sch : List String)
    (se : Sensor) (pt : Option Patient) :
    ((run_future_model m sch se pt).1 = none ↔
      (run_future_model m sch se pt).2 = "UNKNOWN") ∧
    ((run_future_model m sch se pt).1.isSome = true →
      (run_future_model m sch se pt).2 = "LOW RISK" ∨
      (run_future_model m sch se pt).2 = "MEDIUM RISK" ∨
      (run_future_model m sch se pt).2 = "HIGH RISK") := by
  rcases run_future_model_qcases m sch se pt with hr | ⟨q, hr⟩
  · rw [hr]
    constructor
    · simp
    · intro h
      simp at h
  · rw [hr]
    have hq : ¬ label_of q = "UNKNOWN" := by
      rcases label_of_cases q with hl | hl | hl <;> rw [hl] <;> decide
    constructor
    · simp [hq]
    · intro h
      exact label_of_cases q

/-- Witness for C10: a present classifier on a nonempty schema returns a
probability, so the label is one of the three risk tiers. -/
theorem C10_prob_label_invariant_witness :
    (run_future_model (some (fun _ => (0.5 : ℚ))) ["age"] {} none).2 = "LOW RISK" ∨
    (run_future_model (some (fun _ => (0.5 : ℚ))) ["age"] {} none).2 = "MEDIUM RISK" ∨
    (run_future_model (some (fun _ => (0.5 : ℚ))) ["age"] {} none).2 = "HIGH RISK" :=
  (C10_prob_label_invariant (some (fun _ => (0.5 : ℚ))) ["age"] {} none).2 rfl
